import Mathlib

/-!
Shallow embedding of the OpenClaw GitHub skill.

The repository contains two renderings of the same adapter logic: a
TypeScript api module (src/unnamed/part_001) and a JavaScript skill file
(src/index.js).  Definitions suffixed `Js` are translated from index.js;
the unsuffixed ones are translated from the TypeScript api module.

Network I/O is modelled by oracle parameters: `upstreamLogin` stands for
the `login` field of the response to the identity lookup
(`GET /user`), and each adapter receives a `Resp` value standing for the
response to the single HTTP request it issues.  The module-level mutable
`cachedUser` variable is modelled by explicit state passing: adapters take
the cache at entry and return the cache at exit.  Adapters that the claims
interrogate for network activity also return a trace of the requests they
issued, in order.
-/

namespace GHSkill

/-- JavaScript truthiness of an optional string: `undefined` / `null`
(here `none`) and the empty string are falsy; every other string is
truthy. -/
def truthyS : Option String → Bool
  | none => false
  | some s => !s.isEmpty

/-- JavaScript `x || d` for an optional string `x`: falls back to `d`
when `x` is absent or empty. -/
def jsOrStr (x : Option String) (d : String) : String :=
  if truthyS x then x.getD "" else d

/-- JavaScript string interpolation of a possibly-undefined value:
`undefined` prints as the literal string "undefined". -/
def jsToString (x : Option String) : String :=
  match x with
  | some s => s
  | none => "undefined"

/-- JavaScript `x || d` for an optional number `x` (naturals in this
embedding): `undefined` and `0` are falsy and fall back to `d`. -/
def jsOrNat (x : Option Nat) (d : Nat) : Nat :=
  match x with
  | some n => if n == 0 then d else n
  | none => d

/-- The slice of the process environment read by the skill. -/
structure Env where
  GITHUB_TOKEN : Option String
  GITHUB_USERNAME : Option String

/-- The nested github configuration object carried by the context. -/
structure GithubConfig where
  token : Option String
  username : Option String

/-- The value of `context.config`. -/
structure HostConfig where
  github : Option GithubConfig

/-- The per-invocation context object supplied by the host. -/
structure Context where
  config : Option HostConfig

/-- The expression `context.config?.github || \x7b\x7d`: optional chaining
followed by a fallback to the empty configuration object. -/
def githubConfigOf (context : Context) : GithubConfig :=
  match context.config with
  | none => { token := none, username := none }
  | some c =>
    match c.github with
    | none => { token := none, username := none }
    | some g => g

/-- The fixed API base URL constant `GITHUB_API`. -/
def GITHUB_API : String := "https://api.github.com"

/-- The header map built by the credential resolver.  The `Authorization`
entry is optional; `Accept` and `User-Agent` are always present. -/
structure Headers where
  accept : String
  userAgent : String
  authorization : Option String
  deriving DecidableEq

/-- `getAuthHeaders` from the api module (identical to `authHeaders` in
index.js): base headers, then the environment token if truthy (returning
immediately), else the configured token if truthy. -/
def getAuthHeaders (env : Env) (context : Context) : Headers :=
  let headers : Headers :=
    { accept := "application/vnd.github.v3+json"
      userAgent := "OpenClaw-GitHub-Skill"
      authorization := none }
  if truthyS env.GITHUB_TOKEN then
    { headers with authorization := some ("token " ++ env.GITHUB_TOKEN.getD "") }
  else
    let config := githubConfigOf context
    if truthyS config.token then
      { headers with authorization := some ("token " ++ config.token.getD "") }
    else
      headers

/-- `getUsername` from the api module.  Returns the resolved value, the
cache after the call, and the number of identity-endpoint lookups the
call performed (0 or 1).  Branches, in source order: environment
variable, configured username, cached value, network lookup whose
`login` field is the oracle `upstreamLogin` (the source does not check
`response.ok` here). -/
def getUsername (env : Env) (context : Context) (upstreamLogin : Option String)
    (cachedUser : Option String) : Option String × Option String × Nat :=
  if truthyS env.GITHUB_USERNAME then
    (env.GITHUB_USERNAME, cachedUser, 0)
  else
    let config := githubConfigOf context
    if truthyS config.username then
      (config.username, cachedUser, 0)
    else
      if truthyS cachedUser then
        (cachedUser, cachedUser, 0)
      else
        (upstreamLogin, upstreamLogin, 1)

/-- `getUsername` from index.js; textually the same logic as the api
module rendering. -/
def getUsernameJs (env : Env) (context : Context) (upstreamLogin : Option String)
    (cachedUser : Option String) : Option String × Option String × Nat :=
  if truthyS env.GITHUB_USERNAME then
    (env.GITHUB_USERNAME, cachedUser, 0)
  else
    let config := githubConfigOf context
    if truthyS config.username then
      (config.username, cachedUser, 0)
    else
      if truthyS cachedUser then
        (cachedUser, cachedUser, 0)
      else
        (upstreamLogin, upstreamLogin, 1)

/-- N sequential calls to `getUsername` in one process, threading the
module-level cache.  Returns the list of returned values, the final
cache, and the total number of identity lookups. -/
def getUsernameIter (env : Env) (context : Context) (upstreamLogin : Option String) :
    Nat → Option String → List (Option String) × Option String × Nat
  | 0, cachedUser => ([], cachedUser, 0)
  | n + 1, cachedUser =>
    let r := getUsername env context upstreamLogin cachedUser
    let rest := getUsernameIter env context upstreamLogin n r.2.1
    (r.1 :: rest.1, rest.2.1, r.2.2 + rest.2.2)

/-- An HTTP response as an adapter observes it: the `ok` flag, the numeric
status, the JSON body read as an error envelope (its `message` field,
`none` when absent), and the JSON body read as the success payload. -/
structure Resp (α : Type) where
  ok : Bool
  status : Nat
  errMessage : Option String
  payload : α

/-- A network request recorded in an adapter trace. -/
inductive GhRequest where
  | userLookup
  | issuePost (url : String) (title : String) (bodyText : String)
      (extra : List (String × String))
  | prPost (url : String) (title : String) (bodyText : String)
      (headBranch : String) (baseBranch : String)
  deriving DecidableEq

/-- Parameters of list_repos. -/
structure RepositoryListParams where
  type : Option String
  sort : Option String
  direction : Option String
  limit : Option Nat
  language : Option String

/-- An element of the upstream repository-list JSON array, restricted to
the fields the two renderings read (in index.js the projection reads
exactly these; the api module returns the parsed elements unchanged, so
this type also serves as its `Repository`). -/
structure RawRepo where
  name : String
  full_name : String
  description : Option String
  stargazers_count : Nat
  forks_count : Nat
  language : Option String
  updated_at : String
  html_url : String
  priv : Bool
  deriving DecidableEq

/-- Result of the api-module list_repos (repositories returned as parsed,
unprojected). -/
structure ListReposResult where
  total : Nat
  repos : List RawRepo
  deriving DecidableEq

/-- JavaScript `toLowerCase`, modelled as per-character lowering. -/
def jsToLower (s : String) : String := String.mk (s.data.map Char.toLower)

/-- The language-filter predicate shared by both renderings:
`r.language?.toLowerCase() === language.toLowerCase()`; a null or absent
language compares unequal. -/
def languageMatches (language : String) (r : RawRepo) : Bool :=
  match r.language with
  | some l => jsToLower l == jsToLower language
  | none => false

/-- `listRepos` from the api module: resolve username, default the
parameters, fail on a non-ok response with the numeric status, otherwise
filter by language when the filter is truthy, then truncate to `limit`. -/
def listRepos (env : Env) (context : Context) (upstreamLogin : Option String)
    (cachedUser : Option String) (args : RepositoryListParams)
    (resp : Resp (List RawRepo)) : Except String ListReposResult × Option String :=
  let u := getUsername env context upstreamLogin cachedUser
  let username := u.1
  let cache1 := u.2.1
  let ty := args.type.getD "owner"
  let sortv := args.sort.getD "updated"
  let dir := args.direction.getD "desc"
  let limit := args.limit.getD 30
  let _url := GITHUB_API ++ "/users/" ++ jsToString username ++ "/repos?type=" ++ ty ++
      "&sort=" ++ sortv ++ "&direction=" ++ dir ++ "&per_page=" ++ toString limit
  if !resp.ok then
    (Except.error ("GitHub API error: " ++ toString resp.status), cache1)
  else
    let repos := resp.payload
    let filtered :=
      if truthyS args.language then
        repos.filter (languageMatches (args.language.getD ""))
      else
        repos
    let filtered := filtered.take limit
    (Except.ok { total := filtered.length, repos := filtered }, cache1)

/-- The per-repository projection inside the index.js list_repos result. -/
structure JsRepoSummary where
  name : String
  full_name : String
  description : Option String
  stars : Nat
  forks : Nat
  language : Option String
  updated : String
  url : String
  priv : Bool
  deriving DecidableEq

/-- Result of the index.js list_repos. -/
structure ListReposResultJs where
  total : Nat
  repos : List JsRepoSummary
  deriving DecidableEq

/-- The per-repository field projection inlined in the index.js
list_repos result. -/
def jsProjectRepo (r : RawRepo) : JsRepoSummary :=
  { name := r.name
    full_name := r.full_name
    description := r.description
    stars := r.stargazers_count
    forks := r.forks_count
    language := r.language
    updated := r.updated_at
    url := r.html_url
    priv := r.priv }

/-- `listRepos` from index.js.  Same logic as the api module except that
the truncation uses `args.limit || 30` (so a requested limit of 0 falls
back to 30) and each repository is projected to `JsRepoSummary`. -/
def listReposJs (env : Env) (context : Context) (upstreamLogin : Option String)
    (cachedUser : Option String) (args : RepositoryListParams)
    (resp : Resp (List RawRepo)) : Except String ListReposResultJs × Option String :=
  let u := getUsernameJs env context upstreamLogin cachedUser
  let username := u.1
  let cache1 := u.2.1
  let ty := args.type.getD "owner"
  let sortv := args.sort.getD "updated"
  let dir := args.direction.getD "desc"
  let limit := args.limit.getD 30
  let _url := GITHUB_API ++ "/users/" ++ jsToString username ++ "/repos?type=" ++ ty ++
      "&sort=" ++ sortv ++ "&direction=" ++ dir ++ "&per_page=" ++ toString limit
  if !resp.ok then
    (Except.error ("GitHub API error: " ++ toString resp.status), cache1)
  else
    let repos := resp.payload
    let filtered :=
      if truthyS args.language then
        repos.filter (languageMatches (args.language.getD ""))
      else
        repos
    let filtered := filtered.take (jsOrNat args.limit 30)
    (Except.ok
      { total := filtered.length
        repos := filtered.map jsProjectRepo }, cache1)

/-- Parameters of get_recent_activity. -/
structure RecentActivityParams where
  repo : Option String
  limit : Option Nat

/-- The `author` object nested in an upstream commit. -/
structure RawCommitAuthor where
  name : String
  date : String
  deriving DecidableEq

/-- The `commit` object nested in an upstream commit-list element. -/
structure RawCommitInner where
  message : String
  author : RawCommitAuthor
  deriving DecidableEq

/-- An element of the upstream commit-list JSON array. -/
structure RawCommit where
  sha : String
  commit : RawCommitInner
  html_url : String
  deriving DecidableEq

/-- A normalized commit in the get_recent_activity result. -/
structure NormalizedCommit where
  sha : String
  message : String
  author : String
  date : String
  url : String
  deriving DecidableEq

/-- Result of get_recent_activity. -/
structure RecentActivityResult where
  repo : String
  commits : List NormalizedCommit
  deriving DecidableEq

/-- JavaScript `String.prototype.split` on a single-character separator,
over character lists.  Splitting the empty list yields one empty field. -/
def splitChar (sep : Char) : List Char → List (List Char)
  | [] => [[]]
  | c :: cs =>
    if c = sep then
      [] :: splitChar sep cs
    else
      match splitChar sep cs with
      | [] => [[c]]
      | h :: t => (c :: h) :: t

/-- JavaScript `s.split(sep)[0]` for a single-character separator. -/
def splitFirst (sep : Char) (s : String) : String :=
  ((splitChar sep s.toList).headD []).asString

/-- `getRecentActivity` from the api module: resolve username, require a
truthy repo name, fail on a non-ok response with the numeric status,
otherwise normalize each commit (7-character sha, first line of the
message). -/
def getRecentActivity (env : Env) (context : Context) (upstreamLogin : Option String)
    (cachedUser : Option String) (args : RecentActivityParams)
    (resp : Resp (List RawCommit)) : Except String RecentActivityResult × Option String :=
  let u := getUsername env context upstreamLogin cachedUser
  let username := u.1
  let cache1 := u.2.1
  let limit := args.limit.getD 10
  if !truthyS args.repo then
    (Except.error "Repository name required", cache1)
  else
    let repo := args.repo.getD ""
    let _url := GITHUB_API ++ "/repos/" ++ jsToString username ++ "/" ++ repo ++
        "/commits?per_page=" ++ toString limit
    if !resp.ok then
      (Except.error ("Failed to get activity: " ++ toString resp.status), cache1)
    else
      (Except.ok
        { repo := jsToString username ++ "/" ++ repo
          commits := resp.payload.map (fun c =>
            { sha := c.sha.take 7
              message := splitFirst (Char.ofNat 10) c.commit.message
              author := c.commit.author.name
              date := c.commit.author.date
              url := c.html_url }) }, cache1)

/-- `getRecentActivity` from index.js; textually the same logic as the
api-module rendering. -/
def getRecentActivityJs (env : Env) (context : Context) (upstreamLogin : Option String)
    (cachedUser : Option String) (args : RecentActivityParams)
    (resp : Resp (List RawCommit)) : Except String RecentActivityResult × Option String :=
  let u := getUsernameJs env context upstreamLogin cachedUser
  let username := u.1
  let cache1 := u.2.1
  let limit := args.limit.getD 10
  if !truthyS args.repo then
    (Except.error "Repository name required", cache1)
  else
    let repo := args.repo.getD ""
    let _url := GITHUB_API ++ "/repos/" ++ jsToString username ++ "/" ++ repo ++
        "/commits?per_page=" ++ toString limit
    if !resp.ok then
      (Except.error ("Failed to get activity: " ++ toString resp.status), cache1)
    else
      (Except.ok
        { repo := jsToString username ++ "/" ++ repo
          commits := resp.payload.map (fun c =>
            { sha := c.sha.take 7
              message := splitFirst (Char.ofNat 10) c.commit.message
              author := c.commit.author.name
              date := c.commit.author.date
              url := c.html_url }) }, cache1)

/-- Parameters of create_issue. The free-form `extra` object is modelled
as an association list of JSON fields. -/
structure CreateIssueParams where
  repo : Option String
  title : Option String
  body : Option String
  extra : Option (List (String × String))

/-- The upstream issue-creation response payload. -/
structure RawIssue where
  number : Nat
  title : String
  html_url : String
  state : String
  deriving DecidableEq

/-- The normalized issue result. -/
structure Issue where
  number : Nat
  title : String
  url : String
  state : String
  deriving DecidableEq

/-- `createIssue` from the api module.  Source order: resolve username
(awaited first), then check the title, then POST.  The returned trace
records the identity lookup (when one happened) and the issue POST. On a
non-ok response the error message is the parsed `message` field when
truthy, else the numeric status. -/
def createIssue (env : Env) (context : Context) (upstreamLogin : Option String)
    (cachedUser : Option String) (args : CreateIssueParams)
    (resp : Resp RawIssue) : Except String Issue × Option String × List GhRequest :=
  let u := getUsername env context upstreamLogin cachedUser
  let username := u.1
  let cache1 := u.2.1
  let trace : List GhRequest := if u.2.2 == 0 then [] else [GhRequest.userLookup]
  if !truthyS args.title then
    (Except.error "Issue title required", cache1, trace)
  else
    let title := args.title.getD ""
    let url := GITHUB_API ++ "/repos/" ++ jsToString username ++ "/" ++
        jsToString args.repo ++ "/issues"
    let trace := trace ++ [GhRequest.issuePost url title (jsOrStr args.body "")
        (args.extra.getD [])]
    if !resp.ok then
      (Except.error ("Failed to create issue: " ++
        jsOrStr resp.errMessage (toString resp.status)), cache1, trace)
    else
      (Except.ok
        { number := resp.payload.number
          title := resp.payload.title
          url := resp.payload.html_url
          state := resp.payload.state }, cache1, trace)

/-- Parameters of create_repo (`private` renamed `priv`: it is a Lean
keyword). -/
structure CreateRepoParams where
  name : Option String
  description : Option String
  priv : Option Bool
  auto_init : Option Bool

/-- The upstream repo-creation response payload.  Numeric and string
fields that the projection guards with `|| fallback` are optional here,
standing for possibly-absent JSON fields. -/
structure RawRepoFull where
  name : String
  full_name : String
  description : Option String
  stargazers_count : Option Nat
  forks_count : Option Nat
  language : Option String
  updated_at : Option String
  html_url : String
  priv : Bool
  deriving DecidableEq

/-- The normalized repository returned by the api-module create_repo. -/
structure RepositoryOut where
  name : String
  full_name : String
  description : Option String
  stars : Nat
  forks : Nat
  language : Option String
  updated : String
  url : String
  priv : Bool
  deriving DecidableEq

/-- JavaScript `x || null` for an optional string: an absent or empty
value becomes null. -/
def jsOrNull (x : Option String) : Option String :=
  if truthyS x then x else none

/-- `createRepo` from the api module: resolve username (the result is
unused by the request), require a truthy name, POST to /user/repos; on a
non-ok response use the parsed `message` field when truthy, else the
numeric status; on success project the payload with `|| 0`, `|| null`
and empty-string fallbacks. -/
def createRepo (env : Env) (context : Context) (upstreamLogin : Option String)
    (cachedUser : Option String) (args : CreateRepoParams)
    (resp : Resp RawRepoFull) : Except String RepositoryOut × Option String :=
  let u := getUsername env context upstreamLogin cachedUser
  let cache1 := u.2.1
  let _isPrivate := args.priv.getD false
  let _autoInit := args.auto_init.getD true
  if !truthyS args.name then
    (Except.error "Repository name required", cache1)
  else
    let _url := GITHUB_API ++ "/user/repos"
    if !resp.ok then
      (Except.error ("Failed to create repo: " ++
        jsOrStr resp.errMessage (toString resp.status)), cache1)
    else
      let repo := resp.payload
      (Except.ok
        { name := repo.name
          full_name := repo.full_name
          description := repo.description
          stars := repo.stargazers_count.getD 0
          forks := repo.forks_count.getD 0
          language := jsOrNull repo.language
          updated := jsOrStr repo.updated_at ""
          url := repo.html_url
          priv := repo.priv }, cache1)

/-- Parameters of search_repos. -/
structure SearchReposParams where
  query : Option String
  sort : Option String
  limit : Option Nat

/-- An element of the upstream search-result `items` array. -/
structure RawSearchItem where
  name : String
  full_name : String
  description : String
  stargazers_count : Nat
  language : String
  html_url : String
  deriving DecidableEq

/-- The upstream search response body. -/
structure SearchBody where
  total_count : Nat
  items : Option (List RawSearchItem)

/-- A repository entry in the api-module search_repos result. -/
structure SearchRepoOut where
  name : String
  full_name : String
  description : String
  stars : Nat
  language : String
  url : String
  forks : Nat
  updated : String
  priv : Bool
  deriving DecidableEq

/-- Result of the api-module search_repos. -/
structure SearchReposResult where
  total : Nat
  repos : List SearchRepoOut
  deriving DecidableEq

/-- URI component encoding, irrelevant to every verified property; the
query is carried into the URL as is. -/
def encodeURIComponent (s : String) : String := s

/-- `searchRepos` from the api module: resolve username, require a truthy
query, fail on a non-ok response with the numeric status, otherwise map
the `items` array (defaulting a missing array to empty) into entries
whose `forks`, `updated` and `private` fields are the constants 0, the
empty string, and false.  No client-side truncation is applied: `limit`
only reaches the URL as per_page. -/
def searchRepos (env : Env) (context : Context) (upstreamLogin : Option String)
    (cachedUser : Option String) (args : SearchReposParams)
    (resp : Resp SearchBody) : Except String SearchReposResult × Option String :=
  let u := getUsername env context upstreamLogin cachedUser
  let username := u.1
  let cache1 := u.2.1
  let sortv := args.sort.getD "updated"
  let limit := args.limit.getD 30
  if !truthyS args.query then
    (Except.error "Search query required", cache1)
  else
    let _url := GITHUB_API ++ "/search/repositories?q=" ++
        encodeURIComponent (args.query.getD "") ++ "+user:" ++ jsToString username ++
        "&sort=" ++ sortv ++ "&per_page=" ++ toString limit
    if !resp.ok then
      (Except.error ("Search failed: " ++ toString resp.status), cache1)
    else
      (Except.ok
        { total := resp.payload.total_count
          repos := (resp.payload.items.getD []).map (fun r =>
            { name := r.name
              full_name := r.full_name
              description := r.description
              stars := r.stargazers_count
              language := r.language
              url := r.html_url
              forks := 0
              updated := ""
              priv := false }) }, cache1)

/-- Parameters of create_pull_request. -/
structure CreatePRParams where
  owner : Option String
  repo : Option String
  title : Option String
  body : Option String
  head : Option String
  base : Option String

/-- A branch reference object nested in the upstream PR response. -/
structure RawPRBranch where
  ref : String
  deriving DecidableEq

/-- The upstream pull-request creation response payload. -/
structure RawPR where
  number : Nat
  title : String
  html_url : String
  state : String
  head : RawPRBranch
  base : RawPRBranch
  deriving DecidableEq

/-- The normalized pull-request result. -/
structure PullRequestOut where
  number : Nat
  title : String
  url : String
  state : String
  head : String
  base : String
  deriving DecidableEq

/-- `createPullRequest` from the api module: resolve username, compute
`prOwner = owner || username`, validate that prOwner, repo, title and
head are all truthy, POST to /repos/prOwner/repo/pulls with
`base = 'main'` when absent; on a non-ok response use the parsed
`message` when truthy, else the numeric status. -/
def createPullRequest (env : Env) (context : Context) (upstreamLogin : Option String)
    (cachedUser : Option String) (args : CreatePRParams)
    (resp : Resp RawPR) : Except String PullRequestOut × Option String × List GhRequest :=
  let u := getUsername env context upstreamLogin cachedUser
  let username := u.1
  let cache1 := u.2.1
  let trace : List GhRequest := if u.2.2 == 0 then [] else [GhRequest.userLookup]
  let base := args.base.getD "main"
  let prOwner : Option String := if truthyS args.owner then args.owner else username
  if !truthyS prOwner || !truthyS args.repo || !truthyS args.title || !truthyS args.head then
    (Except.error "owner, repo, title, and head are required", cache1, trace)
  else
    let url := GITHUB_API ++ "/repos/" ++ jsToString prOwner ++ "/" ++
        jsToString args.repo ++ "/pulls"
    let trace := trace ++ [GhRequest.prPost url (args.title.getD "")
        (jsOrStr args.body "") (args.head.getD "") base]
    if !resp.ok then
      (Except.error ("Failed to create PR: " ++
        jsOrStr resp.errMessage (toString resp.status)), cache1, trace)
    else
      (Except.ok
        { number := resp.payload.number
          title := resp.payload.title
          url := resp.payload.html_url
          state := resp.payload.state
          head := resp.payload.head.ref
          base := resp.payload.base.ref }, cache1, trace)

/-- `createPullRequest` from index.js.  Unlike the api module it has no
owner fallback: the validation requires the `owner` parameter itself to
be truthy, and the URL uses `owner` directly. -/
def createPullRequestJs (env : Env) (context : Context) (upstreamLogin : Option String)
    (cachedUser : Option String) (args : CreatePRParams)
    (resp : Resp RawPR) : Except String PullRequestOut × Option String × List GhRequest :=
  let u := getUsernameJs env context upstreamLogin cachedUser
  let cache1 := u.2.1
  let trace : List GhRequest := if u.2.2 == 0 then [] else [GhRequest.userLookup]
  let base := args.base.getD "main"
  if !truthyS args.owner || !truthyS args.repo || !truthyS args.title || !truthyS args.head then
    (Except.error "owner, repo, title, and head are required", cache1, trace)
  else
    let url := GITHUB_API ++ "/repos/" ++ jsToString args.owner ++ "/" ++
        jsToString args.repo ++ "/pulls"
    let trace := trace ++ [GhRequest.prPost url (args.title.getD "")
        (jsOrStr args.body "") (args.head.getD "") base]
    if !resp.ok then
      (Except.error ("Failed to create PR: " ++
        jsOrStr resp.errMessage (toString resp.status)), cache1, trace)
    else
      (Except.ok
        { number := resp.payload.number
          title := resp.payload.title
          url := resp.payload.html_url
          state := resp.payload.state
          head := resp.payload.head.ref
          base := resp.payload.base.ref }, cache1, trace)

/-- Parameters of get_repo. -/
structure RepoDetailsParams where
  owner : Option String
  repo : Option String

/-- The upstream repository-details response payload. -/
structure RawRepoDetails where
  name : String
  full_name : String
  description : Option String
  stargazers_count : Nat
  forks_count : Nat
  watchers_count : Nat
  language : Option String
  open_issues_count : Nat
  created_at : String
  updated_at : String
  pushed_at : String
  html_url : String
  default_branch : String
  priv : Bool
  deriving DecidableEq

/-- The normalized repository-details result. -/
structure RepositoryDetails where
  name : String
  full_name : String
  description : Option String
  stars : Nat
  forks : Nat
  watchers : Nat
  language : Option String
  open_issues : Nat
  created : String
  updated : String
  pushed : String
  url : String
  default_branch : String
  priv : Bool
  deriving DecidableEq

/-- `getRepo` from the api module (identical in index.js): no username
resolution, no validation; on a non-ok response it raises an error
naming only the owner/repo pair, otherwise a 1:1 field projection.  The
headers passed to fetch are built by getAuthHeaders and absorbed by the
response oracle. -/
def getRepo (env : Env) (context : Context) (args : RepoDetailsParams)
    (resp : Resp RawRepoDetails) : Except String RepositoryDetails :=
  let _headers := getAuthHeaders env context
  let _url := GITHUB_API ++ "/repos/" ++ jsToString args.owner ++ "/"
      ++ jsToString args.repo
  if !resp.ok then
    Except.error ("Repo not found: " ++ jsToString args.owner ++ "/"
      ++ jsToString args.repo)
  else
    Except.ok
      { name := resp.payload.name
        full_name := resp.payload.full_name
        description := resp.payload.description
        stars := resp.payload.stargazers_count
        forks := resp.payload.forks_count
        watchers := resp.payload.watchers_count
        language := resp.payload.language
        open_issues := resp.payload.open_issues_count
        created := resp.payload.created_at
        updated := resp.payload.updated_at
        pushed := resp.payload.pushed_at
        url := resp.payload.html_url
        default_branch := resp.payload.default_branch
        priv := resp.payload.priv }

/-- Parameters of check_ci_status. -/
structure CIStatusParams where
  owner : Option String
  repo : Option String

/-- An element of the upstream `workflow_runs` array. -/
structure RawWorkflowRun where
  name : String
  status : String
  conclusion : Option String
  head_branch : String
  head_sha : Option String
  created_at : String
  html_url : String
  deriving DecidableEq

/-- The upstream CI-runs response body; `workflow_runs` may be absent. -/
structure CIRespBody where
  workflow_runs : Option (List RawWorkflowRun)

/-- A normalized workflow run. -/
structure WorkflowRun where
  name : String
  status : String
  conclusion : Option String
  branch : String
  commit : String
  created : String
  url : String
  deriving DecidableEq

/-- Result of check_ci_status. -/
structure CheckCIResult where
  repo : String
  runs : List WorkflowRun
  deriving DecidableEq

/-- `checkCIStatus` from the api module: no username resolution, no
validation; on a non-ok response it raises an error carrying the numeric
status, otherwise maps the runs (defaulting a missing array to empty),
truncating each head sha to 7 characters with an empty-string
fallback. -/
def checkCIStatus (env : Env) (context : Context) (args : CIStatusParams)
    (resp : Resp CIRespBody) : Except String CheckCIResult :=
  let _headers := getAuthHeaders env context
  let _runsUrl := GITHUB_API ++ "/repos/" ++ jsToString args.owner ++ "/"
      ++ jsToString args.repo ++ "/actions/runs?per_page=5"
  if !resp.ok then
    Except.error ("Failed to get CI status: " ++ toString resp.status)
  else
    Except.ok
      { repo := jsToString args.owner ++ "/" ++ jsToString args.repo
        runs := (resp.payload.workflow_runs.getD []).map (fun run =>
          { name := run.name
            status := run.status
            conclusion := run.conclusion
            branch := run.head_branch
            commit := jsOrStr (run.head_sha.map (fun s => s.take 7)) ""
            created := run.created_at
            url := run.html_url }) }

/-! Concrete sample values used by witnesses and counterexamples. -/

/-- An environment carrying only a username. -/
def envAlice : Env := ⟨none, some "alice"⟩

/-- A context with no configuration. -/
def ctxEmpty : Context := ⟨none⟩

/-- A sample upstream repository written in Python. -/
def sampleRepoA : RawRepo :=
  ⟨"alpha", "alice/alpha", none, 5, 2, some "Python", "2024-01-01", "urlA", false⟩

/-- A sample upstream repository written in TypeScript. -/
def sampleRepoB : RawRepo :=
  ⟨"beta", "alice/beta", some "x", 3, 1, some "TypeScript", "2024-01-02", "urlB", true⟩

/-- A sample upstream search item. -/
def sampleItemA : RawSearchItem := ⟨"a", "alice/a", "d", 1, "Python", "ua"⟩

/-- A second sample upstream search item. -/
def sampleItemB : RawSearchItem := ⟨"b", "alice/b", "e", 2, "Go", "ub"⟩

/-- The search result searchRepos produces from the two sample items. -/
def sampleSearchOut : SearchReposResult :=
  ⟨2, [⟨"a", "alice/a", "d", 1, "Python", "ua", 0, "", false⟩,
       ⟨"b", "alice/b", "e", 2, "Go", "ub", 0, "", false⟩]⟩

/-- A sample upstream repo-creation payload with absent optional
fields. -/
def sampleRawRepoFull : RawRepoFull :=
  ⟨"n", "alice/n", none, none, none, none, none, "urlN", false⟩

/-- A sample upstream commit whose message has a multi-line body. -/
def sampleCommit : RawCommit :=
  ⟨"abcdef1234", ⟨"fix bug\n\nlonger body", ⟨"Ann", "2024-02-02"⟩⟩, "cu"⟩

/-- The activity result getRecentActivity produces from the sample
commit. -/
def sampleActivityOut : RecentActivityResult :=
  ⟨"alice/proj", [⟨"abcdef1", "fix bug", "Ann", "2024-02-02", "cu"⟩]⟩

/-! Helper lemmas. -/

/-- Once every credential source is falsy and the cache holds a truthy
value, further sequential calls return the cached value and perform no
lookup. -/
theorem getUsernameIter_cached (env : Env) (context : Context)
    (upstreamLogin : Option String)
    (h1 : truthyS env.GITHUB_USERNAME = false)
    (h2 : truthyS (githubConfigOf context).username = false)
    (u : Option String) (hu : truthyS u = true) :
    ∀ n, getUsernameIter env context upstreamLogin n u = (List.replicate n u, u, 0) := by
  intro n
  induction n with
  | zero => rfl
  | succ k ih =>
    simp [getUsernameIter, getUsername, h1, h2, hu, ih, List.replicate_succ]

/-- Claim C2: environment credentials override configured ones with no
merge, for both the Authorization header and the acting username; when
only the configuration supplies the value, it is used. -/
theorem credential_precedence : ∀ (env : Env) (context : Context),
    (truthyS env.GITHUB_TOKEN = true →
      (getAuthHeaders env context).authorization
          = some ("token " ++ env.GITHUB_TOKEN.getD "")
      ∧ ∀ context2, getAuthHeaders env context = getAuthHeaders env context2)
  ∧ (truthyS env.GITHUB_TOKEN = false →
     truthyS (githubConfigOf context).token = true →
      (getAuthHeaders env context).authorization
          = some ("token " ++ (githubConfigOf context).token.getD ""))
  ∧ (truthyS env.GITHUB_USERNAME = true →
      ∀ upstreamLogin cachedUser,
        (getUsername env context upstreamLogin cachedUser).1 = env.GITHUB_USERNAME
        ∧ ∀ context2, getUsername env context upstreamLogin cachedUser
            = getUsername env context2 upstreamLogin cachedUser)
  ∧ (truthyS env.GITHUB_USERNAME = false →
     truthyS (githubConfigOf context).username = true →
      ∀ upstreamLogin cachedUser,
        (getUsername env context upstreamLogin cachedUser).1
            = (githubConfigOf context).username) := by
  intro env context
  refine ⟨?_, ?_, ?_, ?_⟩
  · intro h
    constructor
    · simp [getAuthHeaders, h]
    · intro context2
      simp [getAuthHeaders, h]
  · intro h1 h2
    simp [getAuthHeaders, h1, h2]
  · intro h upstreamLogin cachedUser
    constructor
    · simp [getUsername, h]
    · intro context2
      simp [getUsername, h]
  · intro h1 h2 upstreamLogin cachedUser
    simp [getUsername, h1, h2]

/-- Claim C2 witness at concrete credentials. -/
theorem credential_precedence_witness :
    (getAuthHeaders ⟨some "envtok", some "envuser"⟩
        ⟨some ⟨some ⟨some "cfgtok", some "cfguser"⟩⟩⟩).authorization
      = some "token envtok"
  ∧ getAuthHeaders ⟨some "envtok", some "envuser"⟩
        ⟨some ⟨some ⟨some "cfgtok", some "cfguser"⟩⟩⟩
      = getAuthHeaders ⟨some "envtok", some "envuser"⟩ ⟨none⟩
  ∧ (getAuthHeaders ⟨none, none⟩
        ⟨some ⟨some ⟨some "cfgtok", some "cfguser"⟩⟩⟩).authorization
      = some "token cfgtok"
  ∧ (getUsername ⟨some "envtok", some "envuser"⟩
        ⟨some ⟨some ⟨some "cfgtok", some "cfguser"⟩⟩⟩ none none).1 = some "envuser"
  ∧ (getUsername ⟨none, none⟩
        ⟨some ⟨some ⟨some "cfgtok", some "cfguser"⟩⟩⟩ none none).1 = some "cfguser" := by
  refine ⟨?_, ?_, ?_, ?_, ?_⟩
  · exact ((credential_precedence ⟨some "envtok", some "envuser"⟩
      ⟨some ⟨some ⟨some "cfgtok", some "cfguser"⟩⟩⟩).1 (by decide)).1
  · exact ((credential_precedence ⟨some "envtok", some "envuser"⟩
      ⟨some ⟨some ⟨some "cfgtok", some "cfguser"⟩⟩⟩).1 (by decide)).2 ⟨none⟩
  · exact (credential_precedence ⟨none, none⟩
      ⟨some ⟨some ⟨some "cfgtok", some "cfguser"⟩⟩⟩).2.1 (by decide) (by decide)
  · exact ((credential_precedence ⟨some "envtok", some "envuser"⟩
      ⟨some ⟨some ⟨some "cfgtok", some "cfguser"⟩⟩⟩).2.2.1 (by decide) none none).1
  · exact (credential_precedence ⟨none, none⟩
      ⟨some ⟨some ⟨some "cfgtok", some "cfguser"⟩⟩⟩).2.2.2 (by decide) (by decide) none none

/-- Claim C3: with no environment or configured username, N + 1
sequential resolver calls starting from an empty cache perform exactly
one identity lookup and all return the looked-up value; and a username
supplied by the environment or the configuration is never written into
the cache and triggers no lookup. -/
theorem username_cache_once : ∀ (env : Env) (context : Context)
    (upstreamLogin : Option String) (n : Nat),
    (truthyS env.GITHUB_USERNAME = false →
     truthyS (githubConfigOf context).username = false →
     truthyS upstreamLogin = true →
       (getUsernameIter env context upstreamLogin (n + 1) none).2.2 = 1
       ∧ (getUsernameIter env context upstreamLogin (n + 1) none).1
           = List.replicate (n + 1) upstreamLogin)
  ∧ (∀ cachedUser,
      (truthyS env.GITHUB_USERNAME = true ∨
       truthyS (githubConfigOf context).username = true) →
        (getUsername env context upstreamLogin cachedUser).2.1 = cachedUser
        ∧ (getUsername env context upstreamLogin cachedUser).2.2 = 0) := by
  intro env context upstreamLogin n
  constructor
  · intro h1 h2 h3
    have hfirst : getUsername env context upstreamLogin none
        = (upstreamLogin, upstreamLogin, 1) := by
      have hc : truthyS (none : Option String) = false := rfl
      simp [getUsername, h1, h2, hc]
    have hrest := getUsernameIter_cached env context upstreamLogin h1 h2
      upstreamLogin h3 n
    constructor
    · simp [getUsernameIter, hfirst, hrest]
    · simp [getUsernameIter, hfirst, hrest, List.replicate_succ]
  · intro cachedUser h
    rcases h with h | h
    · simp [getUsername, h]
    · by_cases he : truthyS env.GITHUB_USERNAME
      · simp [getUsername, he]
      · simp [getUsername, he, h]

/-- Claim C3 witness: three sequential calls with an empty cache do one
lookup and all return the looked-up login; with an environment username
the cache stays empty and no lookup happens. -/
theorem username_cache_once_witness :
    (getUsernameIter ⟨none, none⟩ ctxEmpty (some "octocat") 3 none).2.2 = 1
  ∧ (getUsernameIter ⟨none, none⟩ ctxEmpty (some "octocat") 3 none).1
      = List.replicate 3 (some "octocat")
  ∧ (getUsername envAlice ctxEmpty (some "octocat") none).2.1 = none
  ∧ (getUsername envAlice ctxEmpty (some "octocat") none).2.2 = 0 := by
  refine ⟨?_, ?_, ?_, ?_⟩
  · exact ((username_cache_once ⟨none, none⟩ ctxEmpty (some "octocat") 2).1
      (by decide) (by decide) (by decide)).1
  · exact ((username_cache_once ⟨none, none⟩ ctxEmpty (some "octocat") 2).1
      (by decide) (by decide) (by decide)).2
  · exact ((username_cache_once envAlice ctxEmpty (some "octocat") 0).2 none
      (Or.inl (by decide))).1
  · exact ((username_cache_once envAlice ctxEmpty (some "octocat") 0).2 none
      (Or.inl (by decide))).2

/-- Claim C1 (amended): create_issue with an absent or empty title raises
the validation error naming the title and never issues the
issue-creation POST; but the username resolution runs first, so the
identity lookup precedes the error exactly when none of the environment,
the configuration and the cache supplies a truthy username: when one of
them does, the trace at the error is empty, and when none does, it is
exactly the one identity lookup. -/
theorem createIssue_missing_title :
    ∀ (env : Env) (context : Context) (upstreamLogin cachedUser : Option String)
      (args : CreateIssueParams) (resp : Resp RawIssue),
    truthyS args.title = false →
      (createIssue env context upstreamLogin cachedUser args resp).1
          = Except.error "Issue title required"
      ∧ (∀ r ∈ (createIssue env context upstreamLogin cachedUser args resp).2.2,
            r = GhRequest.userLookup)
      ∧ ((truthyS env.GITHUB_USERNAME = true ∨
          truthyS (githubConfigOf context).username = true ∨
          truthyS cachedUser = true) →
          (createIssue env context upstreamLogin cachedUser args resp).2.2 = [])
      ∧ (truthyS env.GITHUB_USERNAME = false →
         truthyS (githubConfigOf context).username = false →
         truthyS cachedUser = false →
          (createIssue env context upstreamLogin cachedUser args resp).2.2
            = [GhRequest.userLookup]) := by
  intro env context upstreamLogin cachedUser args resp h
  refine ⟨by simp [createIssue, h], ?_, ?_, ?_⟩
  · intro r hr
    by_cases hc : (getUsername env context upstreamLogin cachedUser).2.2 = 0
    · simp [createIssue, h, hc] at hr
    · simp [createIssue, h, hc] at hr
      exact hr
  · intro hsup
    have hz : (getUsername env context upstreamLogin cachedUser).2.2 = 0 := by
      rcases hsup with he | hc | hca
      · simp [getUsername, he]
      · by_cases he : truthyS env.GITHUB_USERNAME
        · simp [getUsername, he]
        · simp [getUsername, he, hc]
      · by_cases he : truthyS env.GITHUB_USERNAME
        · simp [getUsername, he]
        · by_cases hc : truthyS (githubConfigOf context).username
          · simp [getUsername, he, hc]
          · simp [getUsername, he, hc, hca]
    simp [createIssue, h, hz]
  · intro h1 h2 h3
    have hz : (getUsername env context upstreamLogin cachedUser).2.2 = 1 := by
      simp [getUsername, h1, h2, h3]
    simp [createIssue, h, hz]

/-- Claim C1 witness: a missing title produces the validation error with
an empty trace when the environment, the configuration or the cache
supplies the username, and with exactly the identity lookup when none
does. -/
theorem createIssue_missing_title_witness :
    (createIssue envAlice ctxEmpty none none ⟨some "proj", none, none, none⟩
        ⟨true, 201, none, ⟨1, "t", "u", "open"⟩⟩).1
      = Except.error "Issue title required"
  ∧ (∀ r ∈ (createIssue envAlice ctxEmpty none none ⟨some "proj", none, none, none⟩
        ⟨true, 201, none, ⟨1, "t", "u", "open"⟩⟩).2.2, r = GhRequest.userLookup)
  ∧ (createIssue envAlice ctxEmpty none none ⟨some "proj", none, none, none⟩
        ⟨true, 201, none, ⟨1, "t", "u", "open"⟩⟩).2.2 = []
  ∧ (createIssue ⟨none, none⟩ ⟨some ⟨some ⟨none, some "carol"⟩⟩⟩ none none
        ⟨some "proj", none, none, none⟩ ⟨true, 201, none, ⟨1, "t", "u", "open"⟩⟩).2.2 = []
  ∧ (createIssue ⟨none, none⟩ ctxEmpty none (some "dave")
        ⟨some "proj", none, none, none⟩ ⟨true, 201, none, ⟨1, "t", "u", "open"⟩⟩).2.2 = []
  ∧ (createIssue ⟨none, none⟩ ctxEmpty (some "octocat") none
        ⟨some "proj", none, none, none⟩ ⟨true, 201, none, ⟨1, "t", "u", "open"⟩⟩).2.2
      = [GhRequest.userLookup] := by
  have h := createIssue_missing_title envAlice ctxEmpty none none
    ⟨some "proj", none, none, none⟩ ⟨true, 201, none, ⟨1, "t", "u", "open"⟩⟩ (by decide)
  have hcfg := createIssue_missing_title ⟨none, none⟩ ⟨some ⟨some ⟨none, some "carol"⟩⟩⟩
    none none ⟨some "proj", none, none, none⟩ ⟨true, 201, none, ⟨1, "t", "u", "open"⟩⟩
    (by decide)
  have hca := createIssue_missing_title ⟨none, none⟩ ctxEmpty none (some "dave")
    ⟨some "proj", none, none, none⟩ ⟨true, 201, none, ⟨1, "t", "u", "open"⟩⟩ (by decide)
  have hlk := createIssue_missing_title ⟨none, none⟩ ctxEmpty (some "octocat") none
    ⟨some "proj", none, none, none⟩ ⟨true, 201, none, ⟨1, "t", "u", "open"⟩⟩ (by decide)
  exact ⟨h.1, h.2.1, h.2.2.1 (Or.inl (by decide)),
    hcfg.2.2.1 (Or.inr (Or.inl (by decide))),
    hca.2.2.1 (Or.inr (Or.inr (by decide))),
    hlk.2.2.2 (by decide) (by decide) (by decide)⟩

/-- Claim C1 counterexample: with no username from the environment, the
configuration or the cache, create_issue with a missing title performs
the username-lookup network request before raising: the recorded trace
at the moment of the error is nonempty. -/
theorem createIssue_missing_title_cex :
    (createIssue ⟨none, none⟩ ctxEmpty (some "octocat") none
        ⟨some "proj", none, none, none⟩ ⟨true, 201, none, ⟨1, "t", "u", "open"⟩⟩)
      = (Except.error "Issue title required", some "octocat", [GhRequest.userLookup])
  ∧ [GhRequest.userLookup] ≠ ([] : List GhRequest) := by
  exact ⟨rfl, by decide⟩

/-- Claim C4 (amended): list_repos never returns more repositories than
the requested limit (default 30); search_repos applies no client-side
truncation, returning exactly one entry per upstream item. -/
theorem repos_limit_bound :
    ∀ (env : Env) (context : Context) (upstreamLogin cachedUser : Option String),
    (∀ (args : RepositoryListParams) (resp : Resp (List RawRepo))
        (out : ListReposResult),
       (listRepos env context upstreamLogin cachedUser args resp).1 = Except.ok out →
       out.repos.length ≤ args.limit.getD 30)
  ∧ (∀ (args : SearchReposParams) (resp : Resp SearchBody)
        (out : SearchReposResult),
       (searchRepos env context upstreamLogin cachedUser args resp).1 = Except.ok out →
       out.repos.length = (resp.payload.items.getD []).length) := by
  intro env context upstreamLogin cachedUser
  constructor
  · intro args resp out h
    by_cases hok : resp.ok
    · simp only [listRepos, hok, Bool.not_true, Bool.false_eq_true, if_false,
        Except.ok.injEq] at h
      subst h
      simp [List.length_take]
    · simp [listRepos, hok] at h
  · intro args resp out h
    by_cases hq : truthyS args.query
    · by_cases hok : resp.ok
      · simp only [searchRepos, hq, hok, Bool.not_true, Bool.not_false,
          Bool.false_eq_true, if_false, if_true, Except.ok.injEq] at h
        subst h
        simp [List.length_map]
      · simp [searchRepos, hq, hok] at h
    · simp [searchRepos, hq] at h

/-- Claim C4 witness at a concrete limit of 1. -/
theorem repos_limit_bound_witness :
    (⟨1, [sampleRepoA]⟩ : ListReposResult).repos.length
        ≤ (some 1 : Option Nat).getD 30
  ∧ sampleSearchOut.repos.length
        = ((some [sampleItemA, sampleItemB] : Option (List RawSearchItem)).getD []).length := by
  constructor
  · exact (repos_limit_bound envAlice ctxEmpty none none).1
      ⟨none, none, none, some 1, none⟩ ⟨true, 200, none, [sampleRepoA, sampleRepoB]⟩
      ⟨1, [sampleRepoA]⟩ rfl
  · exact (repos_limit_bound envAlice ctxEmpty none none).2
      ⟨some "q", none, some 1⟩ ⟨true, 200, none, ⟨2, some [sampleItemA, sampleItemB]⟩⟩
      sampleSearchOut rfl

/-- Claim C4 counterexample: a search_repos call with limit 1 whose
upstream body carries two items returns two repositories, exceeding the
requested limit. -/
theorem searchRepos_exceeds_limit_cex :
    ((searchRepos envAlice ctxEmpty none none ⟨some "q", none, some 1⟩
        ⟨true, 200, none, ⟨2, some [sampleItemA, sampleItemB]⟩⟩).1.map
          (fun out => out.repos.length))
      = Except.ok 2
  ∧ ¬(2 ≤ 1) := by
  exact ⟨rfl, by decide⟩

/-- A sample upstream repository-details payload. -/
def sampleRepoDetails : RawRepoDetails :=
  ⟨"widget", "acme/widget", none, 0, 0, 0, none, 0, "c", "u2", "p", "hu", "main", false⟩

/-- A sample CI response body with the runs array absent. -/
def sampleCIBody : CIRespBody := ⟨none⟩

/-- Claim C5 (amended): on a non-success status, every read adapter
(list_repos, search_repos, get_recent_activity, check_ci_status) raises
an error carrying only the numeric status and get_repo raises an error
carrying only the owner/repo pair, all ignoring the parsed error body;
every write adapter (create_repo, create_issue, create_pull_request)
raises an error carrying the parsed message when it is truthy and falls
back to the numeric status otherwise.  In every case an error is
raised. -/
theorem upstream_error_messages :
    ∀ (env : Env) (context : Context) (upstreamLogin cachedUser : Option String),
    (∀ (args : RepositoryListParams) (resp : Resp (List RawRepo)),
       resp.ok = false →
       (listRepos env context upstreamLogin cachedUser args resp).1
         = Except.error ("GitHub API error: " ++ toString resp.status))
  ∧ (∀ (args : SearchReposParams) (resp : Resp SearchBody),
       resp.ok = false → truthyS args.query = true →
       (searchRepos env context upstreamLogin cachedUser args resp).1
         = Except.error ("Search failed: " ++ toString resp.status))
  ∧ (∀ (args : RecentActivityParams) (resp : Resp (List RawCommit)),
       resp.ok = false → truthyS args.repo = true →
       (getRecentActivity env context upstreamLogin cachedUser args resp).1
         = Except.error ("Failed to get activity: " ++ toString resp.status))
  ∧ (∀ (args : CIStatusParams) (resp : Resp CIRespBody),
       resp.ok = false →
       checkCIStatus env context args resp
         = Except.error ("Failed to get CI status: " ++ toString resp.status))
  ∧ (∀ (args : RepoDetailsParams) (resp : Resp RawRepoDetails),
       resp.ok = false →
       getRepo env context args resp
         = Except.error ("Repo not found: " ++ jsToString args.owner ++ "/"
             ++ jsToString args.repo))
  ∧ (∀ (args : CreateRepoParams) (resp : Resp RawRepoFull),
       resp.ok = false → truthyS args.name = true →
       ((truthyS resp.errMessage = true →
          (createRepo env context upstreamLogin cachedUser args resp).1
            = Except.error ("Failed to create repo: " ++ resp.errMessage.getD ""))
        ∧ (truthyS resp.errMessage = false →
          (createRepo env context upstreamLogin cachedUser args resp).1
            = Except.error ("Failed to create repo: " ++ toString resp.status))))
  ∧ (∀ (args : CreateIssueParams) (resp : Resp RawIssue),
       resp.ok = false → truthyS args.title = true →
       ((truthyS resp.errMessage = true →
          (createIssue env context upstreamLogin cachedUser args resp).1
            = Except.error ("Failed to create issue: " ++ resp.errMessage.getD ""))
        ∧ (truthyS resp.errMessage = false →
          (createIssue env context upstreamLogin cachedUser args resp).1
            = Except.error ("Failed to create issue: " ++ toString resp.status))))
  ∧ (∀ (args : CreatePRParams) (resp : Resp RawPR),
       resp.ok = false → truthyS args.owner = true → truthyS args.repo = true →
       truthyS args.title = true → truthyS args.head = true →
       ((truthyS resp.errMessage = true →
          (createPullRequest env context upstreamLogin cachedUser args resp).1
            = Except.error ("Failed to create PR: " ++ resp.errMessage.getD ""))
        ∧ (truthyS resp.errMessage = false →
          (createPullRequest env context upstreamLogin cachedUser args resp).1
            = Except.error ("Failed to create PR: " ++ toString resp.status)))) := by
  intro env context upstreamLogin cachedUser
  refine ⟨?_, ?_, ?_, ?_, ?_, ?_, ?_, ?_⟩
  · intro args resp hok
    simp [listRepos, hok]
  · intro args resp hok hq
    simp [searchRepos, hok, hq]
  · intro args resp hok hrepo
    simp [getRecentActivity, hok, hrepo]
  · intro args resp hok
    simp [checkCIStatus, hok]
  · intro args resp hok
    simp [getRepo, hok]
  · intro args resp hok hname
    constructor
    · intro hm
      simp [createRepo, hok, hname, jsOrStr, hm]
    · intro hm
      simp [createRepo, hok, hname, jsOrStr, hm]
  · intro args resp hok htitle
    constructor
    · intro hm
      simp [createIssue, hok, htitle, jsOrStr, hm]
    · intro hm
      simp [createIssue, hok, htitle, jsOrStr, hm]
  · intro args resp hok howner hrepo htitle hhead
    constructor
    · intro hm
      simp [createPullRequest, hok, howner, hrepo, htitle, hhead, jsOrStr, hm]
    · intro hm
      simp [createPullRequest, hok, howner, hrepo, htitle, hhead, jsOrStr, hm]

/-- Claim C5 witness at concrete failing responses for all eight
adapters, covering both branches of the write-adapter fallback. -/
theorem upstream_error_messages_witness :
    (listRepos envAlice ctxEmpty none none ⟨none, none, none, none, none⟩
        ⟨false, 403, some "Bad credentials", []⟩).1
      = Except.error ("GitHub API error: " ++ toString (403 : Nat))
  ∧ (searchRepos envAlice ctxEmpty none none ⟨some "q", none, none⟩
        ⟨false, 500, some "boom", ⟨0, none⟩⟩).1
      = Except.error ("Search failed: " ++ toString (500 : Nat))
  ∧ (getRecentActivity envAlice ctxEmpty none none ⟨some "proj", none⟩
        ⟨false, 404, some "Not Found", []⟩).1
      = Except.error ("Failed to get activity: " ++ toString (404 : Nat))
  ∧ checkCIStatus envAlice ctxEmpty ⟨some "acme", some "widget"⟩
        ⟨false, 502, some "bad", sampleCIBody⟩
      = Except.error ("Failed to get CI status: " ++ toString (502 : Nat))
  ∧ getRepo envAlice ctxEmpty ⟨some "acme", some "widget"⟩
        ⟨false, 404, some "Not Found", sampleRepoDetails⟩
      = Except.error ("Repo not found: " ++ jsToString (some "acme") ++ "/"
          ++ jsToString (some "widget"))
  ∧ (createRepo envAlice ctxEmpty none none ⟨some "newrepo", none, none, none⟩
        ⟨false, 422, some "name already exists", sampleRawRepoFull⟩).1
      = Except.error ("Failed to create repo: "
          ++ (some "name already exists" : Option String).getD "")
  ∧ (createRepo envAlice ctxEmpty none none ⟨some "newrepo", none, none, none⟩
        ⟨false, 422, none, sampleRawRepoFull⟩).1
      = Except.error ("Failed to create repo: " ++ toString (422 : Nat))
  ∧ (createIssue envAlice ctxEmpty none none ⟨some "proj", some "Bug", none, none⟩
        ⟨false, 410, some "Issues are disabled", ⟨1, "t", "u", "open"⟩⟩).1
      = Except.error ("Failed to create issue: "
          ++ (some "Issues are disabled" : Option String).getD "")
  ∧ (createPullRequest envAlice ctxEmpty none none
        ⟨some "alice", some "proj", some "Fix", none, some "feat", none⟩
        ⟨false, 422, some "No commits between branches",
          ⟨7, "Fix", "pru", "open", ⟨"feat"⟩, ⟨"main"⟩⟩⟩).1
      = Except.error ("Failed to create PR: "
          ++ (some "No commits between branches" : Option String).getD "") := by
  have h := upstream_error_messages envAlice ctxEmpty none none
  obtain ⟨h1, h2, h3, h4, h5, h6, h7, h8⟩ := h
  refine ⟨?_, ?_, ?_, ?_, ?_, ?_, ?_, ?_, ?_⟩
  · exact h1 ⟨none, none, none, none, none⟩ ⟨false, 403, some "Bad credentials", []⟩ rfl
  · exact h2 ⟨some "q", none, none⟩ ⟨false, 500, some "boom", ⟨0, none⟩⟩ rfl (by decide)
  · exact h3 ⟨some "proj", none⟩ ⟨false, 404, some "Not Found", []⟩ rfl (by decide)
  · exact h4 ⟨some "acme", some "widget"⟩ ⟨false, 502, some "bad", sampleCIBody⟩ rfl
  · exact h5 ⟨some "acme", some "widget"⟩
      ⟨false, 404, some "Not Found", sampleRepoDetails⟩ rfl
  · exact (h6 ⟨some "newrepo", none, none, none⟩
      ⟨false, 422, some "name already exists", sampleRawRepoFull⟩ rfl (by decide)).1
      (by decide)
  · exact (h6 ⟨some "newrepo", none, none, none⟩
      ⟨false, 422, none, sampleRawRepoFull⟩ rfl (by decide)).2 (by decide)
  · exact (h7 ⟨some "proj", some "Bug", none, none⟩
      ⟨false, 410, some "Issues are disabled", ⟨1, "t", "u", "open"⟩⟩ rfl (by decide)).1
      (by decide)
  · exact (h8 ⟨some "alice", some "proj", some "Fix", none, some "feat", none⟩
      ⟨false, 422, some "No commits between branches",
        ⟨7, "Fix", "pru", "open", ⟨"feat"⟩, ⟨"main"⟩⟩⟩ rfl (by decide) (by decide)
      (by decide) (by decide)).1 (by decide)

/-- Claim C5 counterexample: list_repos receives a 403 whose JSON body
carries the parseable human-readable reason, yet the raised message
carries only the numeric status and does not contain the reason. -/
theorem listRepos_error_ignores_body_cex :
    (listRepos envAlice ctxEmpty none none ⟨none, none, none, none, none⟩
        ⟨false, 403, some "Bad credentials", []⟩).1
      = Except.error "GitHub API error: 403"
  ∧ ¬ List.IsInfix "Bad credentials".toList "GitHub API error: 403".toList := by
  exact ⟨rfl, by decide⟩

/-- A sample upstream repository with a null language. -/
def sampleRepoC : RawRepo :=
  ⟨"gamma", "alice/gamma", none, 1, 0, none, "2024-01-03", "urlC", false⟩

/-- A sample upstream pull-request creation response. -/
def samplePRResp : Resp RawPR :=
  ⟨true, 201, none, ⟨7, "Fix", "pru", "open", ⟨"feat"⟩, ⟨"main"⟩⟩⟩

/-- Claim C6 (amended): in the api-module rendering, an omitted owner
falls back to the acting username in the request URL and an omitted base
defaults to main, while an absent or empty title or head raises the
validation error; the index.js rendering instead requires the owner
parameter itself and raises the validation error when it is omitted,
never falling back to the username. -/
theorem createPullRequest_owner_fallback :
    ∀ (env : Env) (context : Context) (upstreamLogin cachedUser : Option String)
      (args : CreatePRParams) (resp : Resp RawPR),
    (args.owner = none →
     truthyS (getUsername env context upstreamLogin cachedUser).1 = true →
     truthyS args.repo = true → truthyS args.title = true → truthyS args.head = true →
     args.base = none →
       (createPullRequest env context upstreamLogin cachedUser args resp).2.2.getLast?
         = some (GhRequest.prPost
             (GITHUB_API ++ "/repos/"
               ++ jsToString (getUsername env context upstreamLogin cachedUser).1 ++ "/"
               ++ jsToString args.repo ++ "/pulls")
             (args.title.getD "") (jsOrStr args.body "") (args.head.getD "") "main"))
  ∧ ((truthyS args.title = false ∨ truthyS args.head = false) →
       (createPullRequest env context upstreamLogin cachedUser args resp).1
         = Except.error "owner, repo, title, and head are required")
  ∧ (args.owner = none →
       (createPullRequestJs env context upstreamLogin cachedUser args resp).1
         = Except.error "owner, repo, title, and head are required"
       ∧ ∀ r ∈ (createPullRequestJs env context upstreamLogin cachedUser args resp).2.2,
           r = GhRequest.userLookup) := by
  intro env context upstreamLogin cachedUser args resp
  have hno : truthyS (none : Option String) = false := rfl
  refine ⟨?_, ?_, ?_⟩
  · intro howner hu hrepo htitle hhead hbase
    by_cases hz : (getUsername env context upstreamLogin cachedUser).2.2 = 0
    · simp [createPullRequest, howner, hno, hu, hrepo, htitle, hhead, hbase, hz]
      split <;> rfl
    · simp [createPullRequest, howner, hno, hu, hrepo, htitle, hhead, hbase, hz]
      split <;> rfl
  · intro h
    rcases h with h | h
    · simp [createPullRequest, h]
    · simp [createPullRequest, h]
  · intro howner
    constructor
    · simp [createPullRequestJs, howner, hno]
    · intro r hr
      by_cases hz : (getUsernameJs env context upstreamLogin cachedUser).2.2 = 0
      · simp [createPullRequestJs, howner, hno, hz] at hr
      · simp [createPullRequestJs, howner, hno, hz] at hr
        exact hr

/-- Claim C6 witness at a concrete omitted owner and base. -/
theorem createPullRequest_owner_fallback_witness :
    (createPullRequest envAlice ctxEmpty none none
        ⟨none, some "proj", some "Fix", none, some "feat", none⟩
        samplePRResp).2.2.getLast?
      = some (GhRequest.prPost
          (GITHUB_API ++ "/repos/"
            ++ jsToString (getUsername envAlice ctxEmpty none none).1 ++ "/"
            ++ jsToString (some "proj") ++ "/pulls")
          ((some "Fix" : Option String).getD "") (jsOrStr none "")
          ((some "feat" : Option String).getD "") "main")
  ∧ (createPullRequest envAlice ctxEmpty none none
        ⟨none, some "proj", none, none, some "feat", none⟩ samplePRResp).1
      = Except.error "owner, repo, title, and head are required"
  ∧ (createPullRequestJs envAlice ctxEmpty none none
        ⟨none, some "proj", some "Fix", none, some "feat", none⟩ samplePRResp).1
      = Except.error "owner, repo, title, and head are required" := by
  refine ⟨?_, ?_, ?_⟩
  · exact (createPullRequest_owner_fallback envAlice ctxEmpty none none
      ⟨none, some "proj", some "Fix", none, some "feat", none⟩ samplePRResp).1
      rfl (by decide) (by decide) (by decide) (by decide) rfl
  · exact (createPullRequest_owner_fallback envAlice ctxEmpty none none
      ⟨none, some "proj", none, none, some "feat", none⟩ samplePRResp).2.1
      (Or.inl (by decide))
  · exact ((createPullRequest_owner_fallback envAlice ctxEmpty none none
      ⟨none, some "proj", some "Fix", none, some "feat", none⟩ samplePRResp).2.2
      rfl).1

/-- Claim C6 counterexample: with owner omitted and valid repo, title
and head, the index.js rendering raises the validation error and issues
no request, while the api-module rendering succeeds — the owner-to-
username fallback does not exist in the index.js rendering. -/
theorem createPullRequestJs_requires_owner_cex :
    (createPullRequestJs envAlice ctxEmpty none none
        ⟨none, some "proj", some "Fix", none, some "feat", none⟩ samplePRResp)
      = (Except.error "owner, repo, title, and head are required", none, [])
  ∧ (createPullRequest envAlice ctxEmpty none none
        ⟨none, some "proj", some "Fix", none, some "feat", none⟩ samplePRResp).1
      = Except.ok ⟨7, "Fix", "pru", "open", "feat", "main"⟩ := by
  exact ⟨rfl, rfl⟩

/-- Claim C7 (amended): the JavaScript and TypeScript renderings of
get_recent_activity are behaviorally equivalent on every input; the
renderings are not equivalent on every action (see the
counterexample). -/
theorem renderings_agree_recent_activity :
    ∀ (env : Env) (context : Context) (upstreamLogin cachedUser : Option String)
      (args : RecentActivityParams) (resp : Resp (List RawCommit)),
      getRecentActivity env context upstreamLogin cachedUser args resp
        = getRecentActivityJs env context upstreamLogin cachedUser args resp := by
  intro env context upstreamLogin cachedUser args resp
  rfl

/-- Claim C7 counterexample: the same list_repos invocation with a
requested limit of 0 returns zero repositories in the TypeScript
rendering but one repository in the JavaScript rendering, so the two
renderings are not behaviorally equivalent. -/
theorem renderings_differ_listRepos_cex :
    (listRepos envAlice ctxEmpty none none ⟨none, none, none, some 0, none⟩
        ⟨true, 200, none, [sampleRepoA]⟩).1
      = Except.ok ⟨0, []⟩
  ∧ (listReposJs envAlice ctxEmpty none none ⟨none, none, none, some 0, none⟩
        ⟨true, 200, none, [sampleRepoA]⟩).1
      = Except.ok ⟨1, [jsProjectRepo sampleRepoA]⟩
  ∧ (0 : Nat) ≠ 1 := by
  exact ⟨rfl, rfl, by decide⟩

/-- Claim C8 (amended): with a nonempty language filter, both renderings
filter the fetched list by case-insensitive language equality (excluding
null or absent languages) before truncating; the TypeScript rendering
truncates the filtered list to `limit` (default 30), while the
JavaScript rendering truncates to `limit OR 30`, treating a requested
limit of 0 as 30. -/
theorem language_filter_correct :
    ∀ (env : Env) (context : Context) (upstreamLogin cachedUser : Option String)
      (args : RepositoryListParams) (resp : Resp (List RawRepo)) (lang : String),
    args.language = some lang → lang ≠ "" → resp.ok = true →
    (∀ out,
       (listRepos env context upstreamLogin cachedUser args resp).1 = Except.ok out →
       out.repos = (resp.payload.filter (languageMatches lang)).take (args.limit.getD 30)
       ∧ ∀ r ∈ out.repos, ∃ l, r.language = some l ∧ jsToLower l = jsToLower lang)
  ∧ (∀ outJs,
       (listReposJs env context upstreamLogin cachedUser args resp).1 = Except.ok outJs →
       outJs.repos = ((resp.payload.filter (languageMatches lang)).take
           (jsOrNat args.limit 30)).map jsProjectRepo
       ∧ ∀ r ∈ outJs.repos, ∃ l, r.language = some l ∧ jsToLower l = jsToLower lang) := by
  intro env context upstreamLogin cachedUser args resp lang hlang hne hok
  have htr : truthyS (some lang) = true := by
    cases hlangE : lang.isEmpty with
    | false => simp [truthyS, hlangE]
    | true => exact absurd ((String.isEmpty_iff lang).mp hlangE) hne
  constructor
  · intro out h
    simp only [listRepos, hok, htr, hlang, Bool.not_true, Bool.false_eq_true,
      if_false, if_true, Except.ok.injEq, Option.getD_some] at h
    subst h
    refine ⟨rfl, ?_⟩
    intro r hr
    have hr2 : r ∈ resp.payload.filter (languageMatches lang) :=
      List.take_subset _ _ hr
    have hpred := (List.mem_filter.mp hr2).2
    cases hcase : r.language with
    | none => rw [languageMatches, hcase] at hpred; simp at hpred
    | some l =>
      rw [languageMatches, hcase] at hpred
      exact ⟨l, rfl, by simpa using hpred⟩
  · intro outJs h
    simp only [listReposJs, hok, htr, hlang, Bool.not_true, Bool.false_eq_true,
      if_false, if_true, Except.ok.injEq, Option.getD_some] at h
    subst h
    refine ⟨rfl, ?_⟩
    intro r hr
    rcases List.mem_map.mp hr with ⟨a, ha, rfl⟩
    have ha2 : a ∈ resp.payload.filter (languageMatches lang) :=
      List.take_subset _ _ ha
    have hpred := (List.mem_filter.mp ha2).2
    cases hcase : a.language with
    | none => rw [languageMatches, hcase] at hpred; simp at hpred
    | some l =>
      rw [languageMatches, hcase] at hpred
      refine ⟨l, ?_, by simpa using hpred⟩
      simp [jsProjectRepo, hcase]

/-- Claim C8 witness: a lowercase filter matches an uppercase-language
repository and excludes a null-language one. -/
theorem language_filter_correct_witness :
    (⟨1, [sampleRepoA]⟩ : ListReposResult).repos
        = (([sampleRepoA, sampleRepoB, sampleRepoC].filter
            (languageMatches "python")).take ((none : Option Nat).getD 30))
  ∧ (∃ l, sampleRepoA.language = some l ∧ jsToLower l = jsToLower "python") := by
  have h := (language_filter_correct envAlice ctxEmpty none none
      ⟨none, none, none, none, some "python"⟩
      ⟨true, 200, none, [sampleRepoA, sampleRepoB, sampleRepoC]⟩ "python"
      rfl (by decide) rfl).1 ⟨1, [sampleRepoA]⟩ rfl
  exact ⟨h.1, h.2 sampleRepoA (by decide)⟩

/-- Claim C8 counterexample: in the JavaScript rendering a language
filter with a requested limit of 0 yields one repository, not the first
0 elements of the filtered list. -/
theorem listReposJs_limit_zero_cex :
    (listReposJs envAlice ctxEmpty none none ⟨none, none, none, some 0, some "Python"⟩
        ⟨true, 200, none, [sampleRepoA]⟩).1
      = Except.ok ⟨1, [jsProjectRepo sampleRepoA]⟩
  ∧ (([sampleRepoA].filter (languageMatches "Python")).take 0).map jsProjectRepo = []
  ∧ [jsProjectRepo sampleRepoA] ≠ ([] : List JsRepoSummary) := by
  exact ⟨rfl, rfl, by decide⟩

/-- splitChar never returns the empty list of fields. -/
theorem splitChar_ne_nil (sep : Char) (l : List Char) : splitChar sep l ≠ [] := by
  cases l with
  | nil => simp [splitChar]
  | cons c cs =>
    by_cases h : c = sep
    · simp [splitChar, h]
    · simp only [splitChar, if_neg h]
      cases hsc : splitChar sep cs <;> simp

/-- The first field of splitChar is the longest separator-free prefix. -/
theorem splitChar_headD (sep : Char) :
    ∀ l : List Char, (splitChar sep l).headD [] = l.takeWhile (fun c => c != sep)
  | [] => by simp [splitChar]
  | c :: cs => by
    by_cases h : c = sep
    · subst h
      simp [splitChar, List.takeWhile_cons]
    · have ih := splitChar_headD sep cs
      cases hsc : splitChar sep cs with
      | nil => exact absurd hsc (splitChar_ne_nil sep cs)
      | cons hh tt =>
        rw [hsc] at ih
        simp only [List.headD_cons] at ih
        simp [splitChar, if_neg h, hsc, List.takeWhile_cons, bne_iff_ne, h, ih]

/-- The JavaScript first-field-of-split equals the prefix of the string
up to (excluding) the first occurrence of the separator. -/
theorem splitFirst_eq_takeWhile (sep : Char) (s : String) :
    splitFirst sep s = (s.toList.takeWhile (fun c => c != sep)).asString := by
  unfold splitFirst
  rw [splitChar_headD]

/-- Claim C9: every normalized commit message produced by
get_recent_activity is the prefix of the raw upstream message up to
(excluding) the first line-break character. -/
theorem commit_message_first_line :
    ∀ (env : Env) (context : Context) (upstreamLogin cachedUser : Option String)
      (args : RecentActivityParams) (resp : Resp (List RawCommit))
      (out : RecentActivityResult),
    (getRecentActivity env context upstreamLogin cachedUser args resp).1 = Except.ok out →
    out.commits.map NormalizedCommit.message
      = resp.payload.map (fun c =>
          (c.commit.message.toList.takeWhile (fun ch => ch != Char.ofNat 10)).asString) := by
  intro env context upstreamLogin cachedUser args resp out h
  by_cases hrepo : truthyS args.repo
  · by_cases hok : resp.ok
    · simp only [getRecentActivity, hrepo, hok, Bool.not_true, Bool.false_eq_true,
        if_false, if_true, Except.ok.injEq] at h
      subst h
      simp [List.map_map, Function.comp, splitFirst_eq_takeWhile]
    · simp [getRecentActivity, hrepo, hok] at h
  · simp [getRecentActivity, hrepo] at h

/-- Claim C9 witness: the raw message with a multi-line body normalizes
to its first line. -/
theorem commit_message_first_line_witness :
    (getRecentActivity envAlice ctxEmpty none none ⟨some "proj", none⟩
        ⟨true, 200, none, [sampleCommit]⟩).1 = Except.ok sampleActivityOut
  ∧ sampleActivityOut.commits.map NormalizedCommit.message
      = [sampleCommit].map (fun c =>
          (c.commit.message.toList.takeWhile (fun ch => ch != Char.ofNat 10)).asString)
  ∧ sampleActivityOut.commits.map NormalizedCommit.message = ["fix bug"] := by
  refine ⟨rfl, ?_, rfl⟩
  exact commit_message_first_line envAlice ctxEmpty none none ⟨some "proj", none⟩
    ⟨true, 200, none, [sampleCommit]⟩ sampleActivityOut rfl

/-- Claim C10: every repository entry in a successful search_repos
result carries the constant placeholders forks 0, empty updated string,
and private false, regardless of the upstream values. -/
theorem search_placeholder_fields :
    ∀ (env : Env) (context : Context) (upstreamLogin cachedUser : Option String)
      (args : SearchReposParams) (resp : Resp SearchBody) (out : SearchReposResult),
    (searchRepos env context upstreamLogin cachedUser args resp).1 = Except.ok out →
    ∀ r ∈ out.repos, r.forks = 0 ∧ r.updated = "" ∧ r.priv = false := by
  intro env context upstreamLogin cachedUser args resp out h r hr
  by_cases hq : truthyS args.query
  · by_cases hok : resp.ok
    · simp only [searchRepos, hq, hok, Bool.not_true, Bool.not_false,
        Bool.false_eq_true, if_false, if_true, Except.ok.injEq] at h
      subst h
      simp only [] at hr
      rcases List.mem_map.mp hr with ⟨a, _, rfl⟩
      exact ⟨rfl, rfl, rfl⟩
    · simp [searchRepos, hq, hok] at h
  · simp [searchRepos, hq] at h

/-- Claim C10 witness at a concrete search result entry. -/
theorem search_placeholder_fields_witness :
    (⟨"a", "alice/a", "d", 1, "Python", "ua", 0, "", false⟩ : SearchRepoOut).forks = 0
  ∧ (⟨"a", "alice/a", "d", 1, "Python", "ua", 0, "", false⟩ : SearchRepoOut).updated = ""
  ∧ (⟨"a", "alice/a", "d", 1, "Python", "ua", 0, "", false⟩ : SearchRepoOut).priv = false := by
  exact search_placeholder_fields envAlice ctxEmpty none none ⟨some "q", none, some 1⟩
    ⟨true, 200, none, ⟨2, some [sampleItemA, sampleItemB]⟩⟩ sampleSearchOut rfl
    ⟨"a", "alice/a", "d", 1, "Python", "ua", 0, "", false⟩ (by decide)

end GHSkill
